import Mathlib

/-!
Shallow embedding of the dialog/permission bridging protocol of
`src/py_browser.py` (BetnixTech/betnium).

The embedding models:
  * the injected content-side script `INJECT_DIALOG_JS` together with the
    forwarder script installed by `BrowserTab._inject_dialog_js` (overridden
    `window.alert` / `window.confirm` / `window.prompt`, the per-kind pending
    resolver slots, the reply `message` listener, and the content-side
    outgoing message queue `window.__qt_message_queue`);
  * the host-side drain of that queue (`poll_js` inside
    `BrowserTab._start_poll_messages`, `BrowserTab._on_poll_result`,
    `BrowserTab._handle_incoming_message`);
  * the host-side dialog routing (`BrowserMain._on_js_dialog`,
    `BrowserMain._post_dialog_response`);
  * `BrowserMain._on_permission_request`;
  * the timer chain of the polling loop and `BrowserMain.close_tab`.

Conventions: JavaScript objects on the message wire are modelled as a flat
record of the fields the scripts actually read; a boolean field that is
absent on a given message is `false` and an absent string is `""`, matching
JavaScript truthiness as used by the guards in the source. `window.postMessage`
delivery is modelled as synchronous execution of the installed listeners (the
real delivery is a later task on the same single-threaded context; no drain
can run in between, so the interleaving is unobservable to the host).
Promise resolver identities are modelled by numbering each override call with
a fresh natural number (`nextComp`); a resolution of such a computation is
recorded in a per-page log.  The fields `gid`/`gtab` of a wire message are
ghost specification data recording which override call (and which tab) a
request or its reply answers; the real wire carries no such identity, and
no transition below ever branches on them.
-/

namespace PyBrowser

/-- JavaScript values that travel in the `answer` field of a reply
(`None`/`bool`/`str` serialized by `json.dumps` in `_post_dialog_response`). -/
inductive JVal where
  | null : JVal
  | jbool : Bool → JVal
  | jstr : String → JVal
deriving DecidableEq, Repr

/-- JavaScript `Boolean(v)` for the values above (used by the
`confirm-response` branch of the injected reply listener). -/
def jsToBool : JVal → Bool
  | JVal.null => false
  | JVal.jbool b => b
  | JVal.jstr s => s ≠ ""

/-- JavaScript `String(v)` for the values above (used by the
`prompt-response` branch of the injected reply listener; the `null` case is
unreachable there because of the `=== null` guard). -/
def jsToString : JVal → String
  | JVal.null => "null"
  | JVal.jbool b => if b then "true" else "false"
  | JVal.jstr s => s

/-- One message posted through `window.postMessage` inside a content
instance, as a flat record of every field some script reads.  `qt_custom`
is `__qt_custom` (request marker), `qt_reply` is `__qt_reply` (reply
marker), `from_page_to_qt` is `__from_page_to_qt` (marker used only by the
fallback listener installed by `poll_js`), `mtype` is `type`, `message` and
`defaultVal` are the payload fields, `answer` is the reply payload.
`gid`/`gtab` are ghost correlation data (see module comment). -/
structure WireMsg where
  qt_custom : Bool := false
  qt_reply : Bool := false
  from_page_to_qt : Bool := false
  mtype : String := ""
  message : String := ""
  defaultVal : String := ""
  answer : JVal := JVal.null
  gid : Nat := 0
  gtab : Nat := 0
deriving DecidableEq, Repr

/-- The value a pending content-side computation resolves to:
`resolve()` for alert, `resolve(Boolean(d.answer))` for confirm,
`resolve(d.answer === null ? null : String(d.answer))` for prompt. -/
inductive RVal where
  | runit : RVal
  | rbool : Bool → RVal
  | rstr : Option String → RVal
deriving DecidableEq, Repr

/-- Log entry for a resolved content-side computation: which computation
(`comp`), the ghost identity of the reply that resolved it (`gid`, `gtab`),
and the value it resolved to. -/
structure ResolveEvent where
  comp : Nat
  gid : Nat
  gtab : Nat
  value : RVal
deriving DecidableEq, Repr

/-- The script-visible state of one content instance (one page's `window`):
the two sentinel flags, the fallback listener flag from `poll_js`, the
outgoing queue (`none` models the property being `undefined`), the three
pending resolver slots (`window.__last_alert_resolve` etc., `none` models
`null`/unset), a counter handing out model identities for override calls,
and the log of resolved computations. -/
structure PageState where
  custom_dialogs : Bool := false
  forwarder_installed : Bool := false
  fallback_listener : Bool := false
  msg_queue : Option (List WireMsg) := none
  last_alert : Option Nat := none
  last_confirm : Option Nat := none
  last_prompt : Option Nat := none
  nextComp : Nat := 0
  resolved : List ResolveEvent := []
deriving DecidableEq, Repr

/-- A fresh page: no script injected yet, every `window.__qt_*` property
undefined. -/
def pageInit : PageState := {}

/-- The three dialog kinds handled by the protocol. -/
inductive DKind where
  | alert : DKind
  | confirm : DKind
  | prompt : DKind
deriving DecidableEq, Repr

/-- `type` field of a request message sent by the overridden primitive. -/
def reqType : DKind → String
  | DKind.alert => "alert"
  | DKind.confirm => "confirm"
  | DKind.prompt => "prompt"

/-- `type` field of the corresponding reply message posted by
`_post_dialog_response`. -/
def respType : DKind → String
  | DKind.alert => "alert-response"
  | DKind.confirm => "confirm-response"
  | DKind.prompt => "prompt-response"

/-- Read the pending resolver slot of a kind. -/
def getSlot : DKind → PageState → Option Nat
  | DKind.alert, p => p.last_alert
  | DKind.confirm, p => p.last_confirm
  | DKind.prompt, p => p.last_prompt

/-- Write the pending resolver slot of a kind. -/
def setSlot : DKind → Option Nat → PageState → PageState
  | DKind.alert, v, p => { p with last_alert := v }
  | DKind.confirm, v, p => { p with last_confirm := v }
  | DKind.prompt, v, p => { p with last_prompt := v }

/-- The `message` listener installed by the forwarder script in
`BrowserTab._inject_dialog_js`: pushes every message carrying the
`__qt_custom` marker onto `window.__qt_message_queue`. -/
def forwarderListener (p : PageState) (m : WireMsg) : PageState :=
  if p.forwarder_installed && m.qt_custom then
    { p with msg_queue := some (p.msg_queue.getD [] ++ [m]) }
  else p

/-- The fallback `message` listener that `poll_js` installs when it finds
`window.__qt_message_queue` undefined but the overrides installed: pushes
messages carrying `__from_page_to_qt` (a marker nothing in the program ever
sets, so this listener is inert). -/
def fallbackListener (p : PageState) (m : WireMsg) : PageState :=
  if p.fallback_listener && m.from_page_to_qt then
    { p with msg_queue := some (p.msg_queue.getD [] ++ [m]) }
  else p

/-- First `if` of the reply listener in `INJECT_DIALOG_JS`:
`if (d.type === 'alert-response' && window.__last_alert_resolve)
 { window.__last_alert_resolve(); window.__last_alert_resolve = null; }`. -/
def alertReplyStep (m : WireMsg) (p : PageState) : PageState :=
  if m.mtype = "alert-response" then
    match p.last_alert with
    | some c =>
        { p with last_alert := none,
                 resolved := p.resolved ++ [⟨c, m.gid, m.gtab, RVal.runit⟩] }
    | none => p
  else p

/-- Second `if` of the reply listener: resolves a pending confirm with
`Boolean(d.answer)`. -/
def confirmReplyStep (m : WireMsg) (p : PageState) : PageState :=
  if m.mtype = "confirm-response" then
    match p.last_confirm with
    | some c =>
        { p with last_confirm := none,
                 resolved := p.resolved ++
                   [⟨c, m.gid, m.gtab, RVal.rbool (jsToBool m.answer)⟩] }
    | none => p
  else p

/-- Third `if` of the reply listener: resolves a pending prompt with
`d.answer === null ? null : String(d.answer)`. -/
def promptReplyStep (m : WireMsg) (p : PageState) : PageState :=
  if m.mtype = "prompt-response" then
    match p.last_prompt with
    | some c =>
        { p with last_prompt := none,
                 resolved := p.resolved ++
                   [⟨c, m.gid, m.gtab,
                     RVal.rstr (match m.answer with
                       | JVal.null => none
                       | v => some (jsToString v))⟩] }
    | none => p
  else p

/-- The `message` listener installed by `INJECT_DIALOG_JS` (present exactly
when the overrides are): a message without the `__qt_reply` marker is
ignored; otherwise the three sequential `if`s above run in order. -/
def replyListener (p : PageState) (m : WireMsg) : PageState :=
  if !p.custom_dialogs then p
  else if !m.qt_reply then p
  else promptReplyStep m (confirmReplyStep m (alertReplyStep m p))

/-- Delivery of one `window.postMessage` inside a content instance: every
installed listener runs on the message (the forwarder listener was added
before the reply listener; the fallback listener, if ever installed, last;
each listener fires on a disjoint marker). -/
def dispatchMessage (p : PageState) (m : WireMsg) : PageState :=
  replyListener (fallbackListener (forwarderListener p m) m) m

/-- The forwarder script run first by `BrowserTab._inject_dialog_js`:
guarded by the `__qt_custom_forwarder_installed` sentinel; on first run
creates the empty queue and installs `forwarderListener`. -/
def installForwarder (p : PageState) : PageState :=
  if p.forwarder_installed then p
  else { p with forwarder_installed := true, msg_queue := some [] }

/-- `INJECT_DIALOG_JS` itself: guarded by the `__qt_custom_dialogs`
sentinel; on first run replaces the three primitives and installs the reply
listener (both facts are represented by the single flag, exactly as the
single sentinel guards both in the source). -/
def installDialogOverrides (p : PageState) : PageState :=
  if p.custom_dialogs then p else { p with custom_dialogs := true }

/-- `BrowserTab._inject_dialog_js`: runs the forwarder script, then the
dialog-override script. -/
def inject_dialog_js (p : PageState) : PageState :=
  installDialogOverrides (installForwarder p)

/-- A call of an overridden primitive (`window.alert` / `window.confirm` /
`window.prompt`) inside tab `t`.  When the overrides are not installed the
native primitive runs instead (outside this protocol): modelled as no
change.  Otherwise, matching the promise executor in `INJECT_DIALOG_JS`:
`send` posts a `__qt_custom` request message (for prompt, with
`defaultVal: defaultVal||''`), and the fresh resolver is stored in the
per-kind slot, replacing any previously held resolver.  `t` and the fresh
computation id ride along as ghost data on the request. -/
def callDialog (t : Nat) (k : DKind) (msg dflt : String) (p : PageState) : PageState :=
  if !p.custom_dialogs then p
  else
    let c := p.nextComp
    let req : WireMsg :=
      { qt_custom := true, mtype := reqType k, message := msg,
        defaultVal := dflt, gid := c, gtab := t }
    let p1 := dispatchMessage p req
    { setSlot k (some c) p1 with nextComp := c + 1 }

/-- One evaluation of `poll_js` (from `BrowserTab._start_poll_messages`)
inside a page: if `window.__qt_message_queue` exists, splice out and return
the whole queue; if it is undefined but the overrides are installed,
install the (inert) fallback listener and an empty queue and return
nothing; otherwise return nothing. -/
def pollPage (p : PageState) : List WireMsg × PageState :=
  match p.msg_queue with
  | some q => (q, { p with msg_queue := some [] })
  | none =>
      if p.custom_dialogs then
        ([], { p with msg_queue := some [], fallback_listener := true })
      else ([], p)

/-! ## Host side: `BrowserMain` dialog routing over a set of tabs -/

/-- One scripted user interaction with a native modal: dismissing the
`QMessageBox.information` Alert box, answering the `QMessageBox.question`
Confirm box Yes/No, or closing the `QInputDialog.getText` Prompt box.  For
Prompt, `edit = none` means the user left the field holding the seeded
`defaultVal`; `edit = some t` means the field was changed to `t`; `ok` is
whether the dialog was accepted. -/
inductive UserChoice where
  | ack : UserChoice
  | answer : Bool → UserChoice
  | text : Option String → Bool → UserChoice
deriving DecidableEq, Repr

/-- `QMessageBox.question(...) == QMessageBox.StandardButton.Yes` for a
scripted choice (a choice of the wrong shape reads as not-Yes). -/
def confirmChoice : UserChoice → Bool
  | UserChoice.answer b => b
  | _ => false

/-- The final text of the Prompt's field, which `QInputDialog.getText`
seeds with `defaultVal`. -/
def promptFieldText (dflt : String) : Option String → String
  | none => dflt
  | some t => t

/-- `(text, ok)` as returned by `QInputDialog.getText` for a scripted
choice (a choice of the wrong shape reads as cancelled). -/
def promptChoice (dflt : String) : UserChoice → String × Bool
  | UserChoice.text edit ok => (promptFieldText dflt edit, ok)
  | _ => ("", false)

/-- Log entry for one native modal shown by the host. -/
structure ModalEvent where
  kind : String
  message : String
deriving DecidableEq, Repr

/-- Host-visible system state: the pages of the open tabs (in tab order),
the index of the current tab, the scripted user choices still to be
consumed (one per native modal, in order), and the log of modals shown. -/
structure SysState where
  tabs : List PageState
  current : Nat
  choices : List UserChoice
  modals : List ModalEvent
deriving DecidableEq, Repr

/-- Consume the next scripted user choice (an empty script reads as a bare
dismissal). -/
def popChoice (s : SysState) : UserChoice × SysState :=
  match s.choices with
  | [] => (UserChoice.ack, s)
  | c :: rest => (c, { s with choices := rest })

/-- `BrowserMain._post_dialog_response`: builds the reply script
`window.postMessage({"__qt_reply":true, "type":..., "answer":...}, "*")`
and runs it on the CURRENT tab's page (`self.current_tab()`); with no
current tab it does nothing.  `g`/`gt` are the ghost identity of the
request being answered (see module comment). -/
def post_dialog_response (typ : String) (ans : JVal) (g gt : Nat) (s : SysState) : SysState :=
  match s.tabs[s.current]? with
  | none => s
  | some p =>
      let reply : WireMsg :=
        { qt_reply := true, mtype := typ, answer := ans, gid := g, gtab := gt }
      { s with tabs := s.tabs.set s.current (dispatchMessage p reply) }

/-- `BrowserMain._on_js_dialog`: shows the native modal for a recognized
dialog type and posts the response; an unrecognized type falls through all
three branches with no effect. -/
def on_js_dialog (m : WireMsg) (s : SysState) : SysState :=
  if m.mtype = "alert" then
    let (_, s1) := popChoice s
    let s2 := { s1 with modals := s1.modals ++ [⟨"Alert", m.message⟩] }
    post_dialog_response "alert-response" JVal.null m.gid m.gtab s2
  else if m.mtype = "confirm" then
    let (c, s1) := popChoice s
    let ok := confirmChoice c
    let s2 := { s1 with modals := s1.modals ++ [⟨"Confirm", m.message⟩] }
    post_dialog_response "confirm-response" (JVal.jbool ok) m.gid m.gtab s2
  else if m.mtype = "prompt" then
    let (c, s1) := popChoice s
    let tok := promptChoice m.defaultVal c
    let s2 := { s1 with modals := s1.modals ++ [⟨"Prompt", m.message⟩] }
    post_dialog_response "prompt-response"
      (if tok.2 then JVal.jstr tok.1 else JVal.null) m.gid m.gtab s2
  else s

/-- `BrowserTab._handle_incoming_message`: a drained message without the
`__qt_custom` marker is dropped; otherwise `{type, payload}` is emitted on
the `js_dialog` signal, which is connected to `_on_js_dialog`. -/
def handle_incoming_message (m : WireMsg) (s : SysState) : SysState :=
  if !m.qt_custom then s else on_js_dialog m s

/-- One drain cycle of tab `t` (the work done by one `poll_once` /
`_on_poll_result` round on a live tab): evaluate `poll_js` in `t`'s page,
then deliver each drained message through the bridge to
`handle_incoming_message`, in enqueue order. -/
def drainTab (t : Nat) (s : SysState) : SysState :=
  match s.tabs[t]? with
  | none => s
  | some p =>
      let bp := pollPage p
      let s1 := { s with tabs := s.tabs.set t bp.2 }
      bp.1.foldl (fun acc m => handle_incoming_message m acc) s1

/-- A content-script call of an overridden dialog primitive inside tab
`t`. -/
def callInTab (t : Nat) (k : DKind) (msg dflt : String) (s : SysState) : SysState :=
  match s.tabs[t]? with
  | none => s
  | some p => { s with tabs := s.tabs.set t (callDialog t k msg dflt p) }

/-- Injection of the override scripts into tab `t` (as done on each
load-finished event). -/
def injectInTab (t : Nat) (s : SysState) : SysState :=
  match s.tabs[t]? with
  | none => s
  | some p => { s with tabs := s.tabs.set t (inject_dialog_js p) }

/-! ## Host side: `BrowserMain._on_permission_request` -/

/-- Everything `BrowserMain._on_permission_request` does for one feature
request: how many `QMessageBox.question` modals it showed, the computed
`allow`, and the `setFeaturePermission(origin, feature, grant)` call it
forwards. -/
structure PermOutcome where
  presenterInvocations : Nat
  allow : Bool
  featureSet : Option (String × String × Bool)
deriving DecidableEq, Repr

/-- `BrowserMain._on_permission_request(tab, origin, feature)`: always
presents the Yes/No `QMessageBox.question` modal, sets
`allow = (res == Yes)` from the user's fresh `choice`, and calls
`setFeaturePermission(QUrl(origin), feature, allow)` (the attribute-present
path; the `except` branch only swallows errors).  Nothing is read before
presenting and nothing is written anywhere: the function has no decision
store. -/
def on_permission_request (choice : Bool) (origin feature : String) : PermOutcome :=
  { presenterInvocations := 1, allow := choice,
    featureSet := some (origin, feature, choice) }

/-- A sequence of feature-permission requests handled one after the other,
each with its scripted user choice. -/
def runPermissionRequests : List Bool → List (String × String) → List PermOutcome
  | c :: cs, r :: rs => on_permission_request c r.1 r.2 :: runPermissionRequests cs rs
  | _, _ => []

/-! ## The polling timer chain (`_start_poll_messages` / `_on_poll_result` /
`close_tab`) -/

/-- State of one tab's polling machinery: whether the tab's view still
exists (`alive`; `close_tab` calls `deleteLater` on it), how many
`QTimer.singleShot` callbacks are scheduled and not yet fired (`pending`),
how many drain cycles have executed against a live context (`drains`), and
how many drain cycles have executed against the destroyed context
(`staleAccesses`: `poll_once` touching `self.view.page()` after
`deleteLater`, which raises at runtime). -/
structure PollState where
  alive : Bool := true
  pending : Nat := 0
  drains : Nat := 0
  staleAccesses : Nat := 0
deriving DecidableEq, Repr

/-- `poll_once` (the closure inside `_start_poll_messages`): runs the drain
script via `runJavaScript` and, through `_on_poll_result`, unconditionally
schedules the next cycle with `QTimer.singleShot(300, next_call)` — there
is no aliveness check anywhere on this path.  On a destroyed view the
`runJavaScript` access raises, so the cycle executes against the stale
context and the callback chain dies there. -/
def poll_once (s : PollState) : PollState :=
  if s.alive then
    { s with drains := s.drains + 1, pending := s.pending + 1 }
  else
    { s with staleAccesses := s.staleAccesses + 1 }

/-- One scheduled `QTimer.singleShot` callback firing: consumes one pending
schedule and runs `poll_once`. -/
def fireTimer (s : PollState) : PollState :=
  match s.pending with
  | 0 => s
  | n + 1 => poll_once { s with pending := n }

/-- The polling-relevant effect of `BrowserMain.close_tab` on the tab being
closed: `deleteLater` destroys the view/widget; no timer is cancelled and
no flag tells the poll chain to stop. -/
def close_tab (s : PollState) : PollState :=
  { s with alive := false }

/-! ## Events on one content instance, and auxiliary definitions for the
statements -/

/-- Anything the embedded program can do to the script state of one page:
(re-)inject the override scripts, call an overridden primitive, deliver a
posted message (a reply, or anything else), or run one `poll_js` drain. -/
inductive PageEvent where
  | pinject : PageEvent
  | pcall : Nat → DKind → String → String → PageEvent
  | pmsg : WireMsg → PageEvent
  | ppoll : PageEvent
deriving DecidableEq, Repr

/-- Effect of one event on a page. -/
def pageStep (p : PageState) : PageEvent → PageState
  | PageEvent.pinject => inject_dialog_js p
  | PageEvent.pcall t k msg dflt => callDialog t k msg dflt p
  | PageEvent.pmsg m => dispatchMessage p m
  | PageEvent.ppoll => (pollPage p).2

/-- Run a sequence of events on a page. -/
def pageRun (p : PageState) : List PageEvent → PageState
  | [] => p
  | e :: es => pageRun (pageStep p e) es

/-- `v` is either empty or holds an identity below `n`. -/
def slotBoundB (v : Option Nat) (n : Nat) : Bool :=
  match v with
  | none => true
  | some c => c < n

/-- Well-formed page: every held resolver slot and every logged resolution
uses a computation identity below the `nextComp` counter (true of every
page reachable from `pageInit`). -/
def wfPageB (p : PageState) : Bool :=
  slotBoundB p.last_alert p.nextComp && slotBoundB p.last_confirm p.nextComp &&
  slotBoundB p.last_prompt p.nextComp &&
  p.resolved.all (fun ev => ev.comp < p.nextComp)

/-- The reply message `_post_dialog_response` posts for kind `k` with
answer `a` (ghost identity `g`/`gt`). -/
def replyWire (k : DKind) (a : JVal) (g gt : Nat) : WireMsg :=
  { qt_reply := true, mtype := respType k, answer := a, gid := g, gtab := gt }

/-- The value the content-side listener hands the pending resolver of kind
`k` for a reply payload `a`. -/
def replyValue (k : DKind) (a : JVal) : RVal :=
  match k with
  | DKind.alert => RVal.runit
  | DKind.confirm => RVal.rbool (jsToBool a)
  | DKind.prompt =>
      RVal.rstr (match a with
        | JVal.null => none
        | v => some (jsToString v))

/-! ## Concrete scenarios used by counterexamples and witnesses -/

/-- Two freshly injected tabs; tab 1 is the current tab; the user will
answer the first Confirm modal Yes and the second No. -/
def twoTabStart : SysState :=
  { tabs := [inject_dialog_js pageInit, inject_dialog_js pageInit], current := 1,
    choices := [UserChoice.answer true, UserChoice.answer false], modals := [] }

/-- Tab 0 calls `confirm("A?")`, tab 1 calls `confirm("B?")`, then each
tab's poll loop drains once (tab 0 first). -/
def twoTabFinal : SysState :=
  drainTab 1 (drainTab 0
    (callInTab 1 DKind.confirm "B?" "" (callInTab 0 DKind.confirm "A?" "" twoTabStart)))

/-- One freshly injected tab (current); the user will answer the first
Confirm modal Yes and the second No. -/
def oneTabStart : SysState :=
  { tabs := [inject_dialog_js pageInit], current := 0,
    choices := [UserChoice.answer true, UserChoice.answer false], modals := [] }

/-- The page calls `confirm("A?")` and then `confirm("B?")` before any
reply arrives; then one drain delivers both queued requests. -/
def oneTabFinal : SysState :=
  drainTab 0 (callInTab 0 DKind.confirm "B?" "" (callInTab 0 DKind.confirm "A?" "" oneTabStart))

/-- A prompt session: one freshly injected tab calls
`prompt("m?", "x")`; the drain shows the Prompt modal, which the scripted
choice `ch` closes. -/
def promptSession (ch : UserChoice) : SysState :=
  drainTab 0 (callInTab 0 DKind.prompt "m?" "x"
    { tabs := [inject_dialog_js pageInit], current := 0, choices := [ch], modals := [] })

/-- A freshly injected page that has called `confirm("A?")` once: it holds
pending confirm computation 0. -/
def confirmPendingPage : PageState :=
  callDialog 0 DKind.confirm "A?" "" (inject_dialog_js pageInit)

/-- A drained message with the `__qt_custom` marker but a `type` the router
does not recognize. -/
def unknownKindMsg : WireMsg :=
  { qt_custom := true, mtype := "permission-query" }

/-- A drained message missing the `__qt_custom` marker. -/
def unmarkedMsg : WireMsg :=
  { mtype := "confirm", message := "hello" }

/-- The protocol-relevant core of a page's script state: the three pending
resolver slots, the resolution log and the call counter (everything except
the outgoing queue, the sentinel flags and the listener bookkeeping). -/
def coreOf (p : PageState) :
    Option Nat × Option Nat × Option Nat × List ResolveEvent × Nat :=
  (p.last_alert, p.last_confirm, p.last_prompt, p.resolved, p.nextComp)

/-- Computation `c` is orphaned in page `p`: no pending resolver slot holds
it, no logged resolution mentions it, and it is below the call counter (so
no later call can reuse it). -/
def orphaned (c : Nat) (p : PageState) : Prop :=
  (∀ k : DKind, getSlot k p ≠ some c)
  ∧ (∀ ev ∈ p.resolved, ev.comp ≠ c) ∧ c < p.nextComp

/-! # Theorems -/

/-- C2 (code_bug evidence): `_on_permission_request` presents the Yes/No
modal on every feature request and answers with the user's fresh choice;
handling two successive requests for the very same `(origin, capability)`
key presents the modal both times.  The function reads no stored decision
— no decision store exists anywhere in the program — so no request is ever
answered without UI. -/
theorem claim2_permission_always_presents :
    ∀ (c c' : Bool) (o f : String),
      (on_permission_request c o f).presenterInvocations = 1
      ∧ (on_permission_request c o f).allow = c
      ∧ (runPermissionRequests [c, c'] [(o, f), (o, f)]).map
          PermOutcome.presenterInvocations = [1, 1] := by
  intro c c' o f
  exact ⟨rfl, rfl, rfl⟩

/-- C3 (code_bug evidence): each feature request invokes the modal
presenter exactly once, and a later request — whether for a different
capability or for the same key again — triggers a fresh modal; the user's
choice is only forwarded to `setFeaturePermission` for this single request
(there is no remember affordance and nothing is persisted: the handler has
no store to write to). -/
theorem claim3_every_request_presents_once :
    ∀ (c c' : Bool) (o f f' : String),
      (runPermissionRequests [c, c'] [(o, f), (o, f')]).map
          PermOutcome.presenterInvocations = [1, 1]
      ∧ (on_permission_request c o f).featureSet = some (o, f, c) := by
  intro c c' o f f'
  exact ⟨rfl, rfl⟩

/-- C4 (code_bug evidence): `close_tab` cancels no scheduled poll callback,
and when the already-scheduled `QTimer.singleShot` callback fires after the
tab is destroyed, `poll_once` still executes a drain cycle against the
destroyed content context (the `runJavaScript` access on the deleted
view). -/
theorem claim4_poll_runs_after_destroy :
    ∀ (s : PollState), 0 < s.pending →
      (close_tab s).pending = s.pending
      ∧ (fireTimer (close_tab s)).staleAccesses = s.staleAccesses + 1
      ∧ (fireTimer (close_tab s)).alive = false := by
  intro s h
  obtain ⟨n, hn⟩ : ∃ n, s.pending = n + 1 := ⟨s.pending - 1, by omega⟩
  refine ⟨rfl, ?_, ?_⟩ <;> simp [fireTimer, close_tab, poll_once, hn]

/-- Witness for C4 at a concrete state: one schedule pending on a live
tab. -/
theorem claim4_witness :
    (close_tab { pending := 1 }).pending = ({ pending := 1 } : PollState).pending
    ∧ (fireTimer (close_tab { pending := 1 })).staleAccesses
        = ({ pending := 1 } : PollState).staleAccesses + 1
    ∧ (fireTimer (close_tab { pending := 1 })).alive = false :=
  claim4_poll_runs_after_destroy { pending := 1 } (by decide)

/-- C6: re-injecting the override scripts into a live content instance is a
no-op (both scripts are guarded by their sentinel flags), and after two
injections a single `alert(msg)` call enqueues exactly one request
message. -/
theorem claim6_reinjection_idempotent :
    ∀ (p : PageState) (msg : String),
      inject_dialog_js (inject_dialog_js p) = inject_dialog_js p
      ∧ (callDialog 0 DKind.alert msg "" (inject_dialog_js (inject_dialog_js pageInit))).msg_queue
          = some [{ qt_custom := true, mtype := "alert", message := msg }] := by
  intro p msg
  constructor
  · unfold inject_dialog_js installForwarder installDialogOverrides
    by_cases hf : p.forwarder_installed <;> by_cases hd : p.custom_dialogs <;> simp [hf, hd]
  · rfl

/-- C7: for `prompt` with `defaultValue = "x"`, cancelling (whatever the
field holds) resolves the pending computation to the no-answer value
`null`, which is distinct from the empty string and from every committed
text; accepting with the field left as seeded resolves to exactly `"x"`. -/
theorem claim7_prompt_roundtrip :
    ∀ (e : Option String) (t : String),
      (promptSession (UserChoice.text e false)).tabs[0]?.map PageState.resolved
          = some [⟨0, 0, 0, RVal.rstr none⟩]
      ∧ RVal.rstr none ≠ RVal.rstr (some "")
      ∧ RVal.rstr none ≠ RVal.rstr (some t)
      ∧ (promptSession (UserChoice.text none true)).tabs[0]?.map PageState.resolved
          = some [⟨0, 0, 0, RVal.rstr (some "x")⟩] := by
  intro e t
  exact ⟨rfl, by simp, by simp, by decide⟩

/-- C8: a drained transport message that is malformed — missing the
`__qt_custom` marker, or carrying a `type` that is not `alert`, `confirm`
or `prompt` — is discarded with no effect at all: no modal is logged, no
reply is posted into any tab, the whole system state is unchanged (and the
handler is total: nothing is raised or surfaced). -/
theorem claim8_malformed_message_noop :
    ∀ (s : SysState) (m : WireMsg),
      (m.qt_custom = false → handle_incoming_message m s = s)
      ∧ (m.mtype ≠ "alert" → m.mtype ≠ "confirm" → m.mtype ≠ "prompt" →
          handle_incoming_message m s = s) := by
  intro s m
  constructor
  · intro h
    simp [handle_incoming_message, h]
  · intro h1 h2 h3
    cases hq : m.qt_custom <;>
      simp [handle_incoming_message, on_js_dialog, h1, h2, h3, hq]

/-- Witness for C8: a marker-less message and an unrecognized-kind message
are both no-ops on a concrete state. -/
theorem claim8_witness :
    handle_incoming_message unmarkedMsg oneTabStart = oneTabStart
    ∧ handle_incoming_message unknownKindMsg oneTabStart = oneTabStart :=
  ⟨(claim8_malformed_message_noop oneTabStart unmarkedMsg).1 (by decide),
   (claim8_malformed_message_noop oneTabStart unknownKindMsg).2
     (by decide) (by decide) (by decide)⟩

/-- C1 counterexample: with tab 1 current, tab 0 and tab 1 each issue a
`confirm` from their own content instance.  Draining tab 0 shows the modal
for tab 0's request (`"A?"`, answered Yes), but `_post_dialog_response`
posts the reply into the CURRENT tab, so it resolves tab 1's pending
computation with tab 0's answer (`true`); tab 1's own request is answered
No later, but that reply is dropped (its slot is already clear), and tab
0's computation is never resolved at all.  The resolution event recorded in
tab 1 carries ghost origin `gtab = 0 ≠ 1`: a reply is delivered into a
content instance other than the one that originated the corresponding
request. -/
theorem claim1_counterexample :
    twoTabFinal.tabs[1]?.map PageState.resolved
        = some [⟨0, 0, 0, RVal.rbool true⟩]
    ∧ twoTabFinal.tabs[0]?.map PageState.resolved = some []
    ∧ twoTabFinal.tabs[0]?.map PageState.last_confirm = some (some 0)
    ∧ twoTabFinal.modals = [⟨"Confirm", "A?"⟩, ⟨"Confirm", "B?"⟩]
    ∧ twoTabFinal.tabs[1]?.map (fun p => p.resolved.any (fun ev => ev.gtab != 1))
        = some true := by
  decide

/-- C1 (amended): `_post_dialog_response` runs the reply script on the
current tab only — every tab other than the current one is untouched by a
reply, whichever instance originated the request. -/
theorem claim1_reply_targets_current_tab :
    ∀ (s : SysState) (typ : String) (a : JVal) (g gt i : Nat),
      i ≠ s.current →
      (post_dialog_response typ a g gt s).tabs[i]? = s.tabs[i]? := by
  intro s typ a g gt i h
  unfold post_dialog_response
  cases hc : s.tabs[s.current]? with
  | none => rfl
  | some p => simp [List.getElem?_set_ne (Ne.symm h)]

/-- Witness for C1's amended theorem: a reply posted while tab 1 is
current leaves tab 0 unchanged. -/
theorem claim1_witness :
    (post_dialog_response "confirm-response" (JVal.jbool true) 0 0 twoTabStart).tabs[0]?
      = twoTabStart.tabs[0]? :=
  claim1_reply_targets_current_tab twoTabStart "confirm-response" (JVal.jbool true) 0 0 0
    (by decide)

/-! ## Helper lemmas on the content-side listeners -/

/-- A posted message without the `__qt_reply` marker is ignored by the
reply listener. -/
theorem replyListener_not_reply (p : PageState) (m : WireMsg)
    (h : m.qt_reply = false) : replyListener p m = p := by
  unfold replyListener
  rw [h]
  simp

/-- The forwarder listener touches only the outgoing queue. -/
theorem forwarderListener_core (p : PageState) (m : WireMsg) :
    coreOf (forwarderListener p m) = coreOf p := by
  unfold forwarderListener
  split <;> rfl

/-- The forwarder listener does not touch the override sentinel. -/
theorem forwarderListener_custom (p : PageState) (m : WireMsg) :
    (forwarderListener p m).custom_dialogs = p.custom_dialogs := by
  unfold forwarderListener
  split <;> rfl

/-- The fallback listener touches only the outgoing queue. -/
theorem fallbackListener_core (p : PageState) (m : WireMsg) :
    coreOf (fallbackListener p m) = coreOf p := by
  unfold fallbackListener
  split <;> rfl

/-- The fallback listener does not touch the override sentinel. -/
theorem fallbackListener_custom (p : PageState) (m : WireMsg) :
    (fallbackListener p m).custom_dialogs = p.custom_dialogs := by
  unfold fallbackListener
  split <;> rfl

/-- Delivering a non-reply message (in particular a request posted by
`send`) leaves the resolver slots, the resolution log and the call counter
unchanged. -/
theorem dispatch_nonreply_core (p : PageState) (m : WireMsg)
    (h : m.qt_reply = false) : coreOf (dispatchMessage p m) = coreOf p := by
  unfold dispatchMessage
  rw [replyListener_not_reply _ _ h, fallbackListener_core, forwarderListener_core]

/-- Delivering a non-reply message does not touch the override sentinel. -/
theorem dispatch_nonreply_custom (p : PageState) (m : WireMsg)
    (h : m.qt_reply = false) :
    (dispatchMessage p m).custom_dialogs = p.custom_dialogs := by
  unfold dispatchMessage
  rw [replyListener_not_reply _ _ h, fallbackListener_custom, forwarderListener_custom]

/-- A `poll_js` evaluation touches only the queue and the fallback
listener. -/
theorem pollPage_core (p : PageState) : coreOf (pollPage p).2 = coreOf p := by
  unfold pollPage
  cases hq : p.msg_queue with
  | none => simp only [hq]; split <;> rfl
  | some q => simp only [hq]; rfl

/-- Injection touches only the sentinels and the queue. -/
theorem inject_core (p : PageState) : coreOf (inject_dialog_js p) = coreOf p := by
  unfold inject_dialog_js installForwarder installDialogOverrides
  by_cases hf : p.forwarder_installed <;> by_cases hc : p.custom_dialogs <;>
    simp [hf, hc, coreOf]

/-- What one `callDialog` does when the overrides are installed: stores the
fresh computation in the kind's slot (replacing whatever was there), leaves
every other slot and the resolution log alone, and bumps the call
counter. -/
theorem callDialog_installed (t : Nat) (k : DKind) (msg dflt : String)
    (p : PageState) (h : p.custom_dialogs = true) :
    getSlot k (callDialog t k msg dflt p) = some p.nextComp
    ∧ (∀ k', k' ≠ k → getSlot k' (callDialog t k msg dflt p) = getSlot k' p)
    ∧ (callDialog t k msg dflt p).nextComp = p.nextComp + 1
    ∧ (callDialog t k msg dflt p).resolved = p.resolved
    ∧ (callDialog t k msg dflt p).custom_dialogs = true := by
  have hreq : (⟨true, false, false, reqType k, msg, dflt, JVal.null, p.nextComp, t⟩ :
      WireMsg).qt_reply = false := rfl
  have hcore := dispatch_nonreply_core p _ hreq
  have hcust := dispatch_nonreply_custom p _ hreq
  simp only [coreOf, Prod.mk.injEq] at hcore
  obtain ⟨ha, hc, hp, hr, hn⟩ := hcore
  unfold callDialog
  rw [h]
  refine ⟨?_, ?_, ?_, ?_, ?_⟩
  · cases k <;> simp [getSlot, setSlot]
  · intro k' hk'
    cases k <;> cases k' <;> simp_all [getSlot, setSlot]
  · cases k <;> simp [setSlot]
  · cases k <;> simp [setSlot, hr]
  · cases k <;> simp [setSlot, hcust, h]

/-- A reply whose kind has no pending resolver in the page is dropped:
the whole listener is a no-op. -/
theorem replyListener_slot_none (p : PageState) (m : WireMsg) (k : DKind)
    (hk : m.mtype = respType k) (hs : getSlot k p = none) :
    replyListener p m = p := by
  cases k <;>
    (simp only [getSlot] at hs
     simp only [respType] at hk
     unfold replyListener alertReplyStep confirmReplyStep promptReplyStep
     simp [hk, hs])

/-- A reply of kind `k` arriving while the page holds a pending resolver
`c` for `k`: the listener resolves exactly that computation with the
translated answer, clears the `k` slot, and touches nothing else. -/
theorem replyListener_resolves (p : PageState) (k : DKind) (a : JVal)
    (g gt c : Nat) (hcd : p.custom_dialogs = true) (hs : getSlot k p = some c) :
    replyListener p (replyWire k a g gt)
      = { setSlot k none p with
            resolved := p.resolved ++ [⟨c, g, gt, replyValue k a⟩] } := by
  cases k <;>
    (simp only [getSlot] at hs
     unfold replyListener alertReplyStep confirmReplyStep promptReplyStep
     simp [replyWire, respType, setSlot, replyValue, hcd, hs])

/-- C5 counterexample: inside one content instance the page calls
`confirm("A?")` and then `confirm("B?")` before any reply arrives (the
second call replaces the pending resolver, computation 1).  The drain then
answers request "A?" with Yes and request "B?" with No, but the reply to
"A?" (ghost identity `gid = 0`) is delivered to the currently pending
computation 1 — the reply does not match the request whose resolver is
held, yet it is delivered rather than dropped. -/
theorem claim5_counterexample :
    oneTabFinal.tabs[0]?.map PageState.resolved
        = some [⟨1, 0, 0, RVal.rbool true⟩]
    ∧ oneTabFinal.modals = [⟨"Confirm", "A?"⟩, ⟨"Confirm", "B?"⟩]
    ∧ oneTabFinal.tabs[0]?.map (fun p => p.resolved.any (fun ev => ev.comp != ev.gid))
        = some true := by
  decide

/-- C5 (amended): the content-side listener correlates replies by kind
only (no requestIds exist on the wire).  A message without the reply
marker, of an unrecognized kind, or whose kind has no pending resolver
(in particular any late reply after navigation reset the slots) is dropped
with no effect; a reply whose kind has a pending resolver resolves exactly
that — possibly different — computation with the reply's answer, clears
that slot and touches no other slot. -/
theorem claim5_kind_only_matching :
    ∀ (p : PageState) (m : WireMsg),
      (m.qt_reply = false → replyListener p m = p)
      ∧ ((∀ k : DKind, m.mtype ≠ respType k) → replyListener p m = p)
      ∧ (∀ k : DKind, m.mtype = respType k → getSlot k p = none →
          replyListener p m = p)
      ∧ (∀ (k : DKind) (a : JVal) (g gt c : Nat),
          p.custom_dialogs = true → getSlot k p = some c →
          getSlot k (replyListener p (replyWire k a g gt)) = none
          ∧ (replyListener p (replyWire k a g gt)).resolved
              = p.resolved ++ [⟨c, g, gt, replyValue k a⟩]
          ∧ (∀ k', k' ≠ k →
              getSlot k' (replyListener p (replyWire k a g gt)) = getSlot k' p)) := by
  intro p m
  refine ⟨replyListener_not_reply p m, ?_, ?_, ?_⟩
  · intro h
    have ha := h DKind.alert
    have hc := h DKind.confirm
    have hp := h DKind.prompt
    simp only [respType] at ha hc hp
    unfold replyListener alertReplyStep confirmReplyStep promptReplyStep
    simp [ha, hc, hp]
  · intro k hk hs
    exact replyListener_slot_none p m k hk hs
  · intro k a g gt c hcd hs
    rw [replyListener_resolves p k a g gt c hcd hs]
    refine ⟨?_, ?_, ?_⟩
    · cases k <;> simp [getSlot, setSlot]
    · cases k <;> simp [setSlot]
    · intro k' hk'
      cases k <;> cases k' <;> simp_all [getSlot, setSlot]

/-- Witness for C5's amended theorem: a request-typed message is ignored
by the listener, and a confirm reply against a page holding a pending
confirm resolves it and clears the slot. -/
theorem claim5_witness :
    replyListener confirmPendingPage { qt_custom := true, mtype := "confirm" }
        = confirmPendingPage
    ∧ getSlot DKind.confirm
        (replyListener confirmPendingPage (replyWire DKind.confirm (JVal.jbool true) 0 0))
        = none :=
  ⟨(claim5_kind_only_matching confirmPendingPage
      { qt_custom := true, mtype := "confirm" }).1 rfl,
   ((claim5_kind_only_matching confirmPendingPage
      (replyWire DKind.confirm (JVal.jbool true) 0 0)).2.2.2 DKind.confirm
      (JVal.jbool true) 0 0 0 (by decide) (by decide)).1⟩

/-- C10: a reply of kind `k` that resolves the pending resolver clears the
slot in the same step, so a second reply of the same kind (whatever its
answer or ghost identity) while no new call is pending is a complete
no-op: it changes nothing in the content context and resolves no further
computation. -/
theorem claim10_resolve_at_most_once :
    ∀ (k : DKind) (p : PageState) (a a' : JVal) (g g' gt gt' c : Nat),
      p.custom_dialogs = true → getSlot k p = some c →
      getSlot k (replyListener p (replyWire k a g gt)) = none
      ∧ (replyListener p (replyWire k a g gt)).resolved
          = p.resolved ++ [⟨c, g, gt, replyValue k a⟩]
      ∧ replyListener (replyListener p (replyWire k a g gt)) (replyWire k a' g' gt')
          = replyListener p (replyWire k a g gt) := by
  intro k p a a' g g' gt gt' c hcd hs
  rw [replyListener_resolves p k a g gt c hcd hs]
  refine ⟨?_, ?_, ?_⟩
  · cases k <;> simp [getSlot, setSlot]
  · cases k <;> simp [setSlot]
  · apply replyListener_slot_none _ _ k
    · rfl
    · cases k <;> simp [getSlot, setSlot]

/-! ## The orphan invariant (for C9) -/

/-- A slot bounded by `n` cannot hold `n`. -/
theorem slotBoundB_ne (v : Option Nat) (n : Nat) (h : slotBoundB v n = true) :
    v ≠ some n := by
  cases v with
  | none => simp
  | some c =>
      simp only [slotBoundB, decide_eq_true_eq] at h
      intro heq
      injection heq with heq
      omega

/-- Orphanhood only depends on the protocol core of the page state. -/
theorem orphaned_of_core (c : Nat) (p q : PageState)
    (h : coreOf q = coreOf p) (ho : orphaned c p) : orphaned c q := by
  simp only [coreOf, Prod.mk.injEq] at h
  obtain ⟨h1, h2, h3, h4, h5⟩ := h
  obtain ⟨hs, hr, hn⟩ := ho
  refine ⟨?_, ?_, ?_⟩
  · intro k
    have hk := hs k
    cases k <;> simp only [getSlot] at hk ⊢ <;> simp [h1, h2, h3, hk]
  · rw [h4]
    exact hr
  · rw [h5]
    exact hn

/-- The first reply-listener branch preserves orphanhood: it can only
clear the alert slot and log a resolution of the (non-orphaned)
computation that slot held. -/
theorem alertReplyStep_orphaned (c : Nat) (m : WireMsg) (p : PageState)
    (h : orphaned c p) : orphaned c (alertReplyStep m p) := by
  obtain ⟨hs, hr, hn⟩ := h
  unfold alertReplyStep
  split
  · cases hla : p.last_alert with
    | none => exact ⟨hs, hr, hn⟩
    | some cc =>
        have hcc : cc ≠ c := by
          intro hEq
          exact hs DKind.alert (by simp [getSlot, hla, hEq])
        refine ⟨?_, ?_, hn⟩
        · intro k
          have hk := hs k
          cases k <;> simp only [getSlot] at hk ⊢ <;> simp [hk]
        · intro ev hev
          rcases List.mem_append.mp hev with h' | h'
          · exact hr ev h'
          · simp only [List.mem_singleton] at h'
            subst h'
            exact hcc
  · exact ⟨hs, hr, hn⟩

/-- The second reply-listener branch preserves orphanhood. -/
theorem confirmReplyStep_orphaned (c : Nat) (m : WireMsg) (p : PageState)
    (h : orphaned c p) : orphaned c (confirmReplyStep m p) := by
  obtain ⟨hs, hr, hn⟩ := h
  unfold confirmReplyStep
  split
  · cases hla : p.last_confirm with
    | none => exact ⟨hs, hr, hn⟩
    | some cc =>
        have hcc : cc ≠ c := by
          intro hEq
          exact hs DKind.confirm (by simp [getSlot, hla, hEq])
        refine ⟨?_, ?_, hn⟩
        · intro k
          have hk := hs k
          cases k <;> simp only [getSlot] at hk ⊢ <;> simp [hk]
        · intro ev hev
          rcases List.mem_append.mp hev with h' | h'
          · exact hr ev h'
          · simp only [List.mem_singleton] at h'
            subst h'
            exact hcc
  · exact ⟨hs, hr, hn⟩

/-- The third reply-listener branch preserves orphanhood. -/
theorem promptReplyStep_orphaned (c : Nat) (m : WireMsg) (p : PageState)
    (h : orphaned c p) : orphaned c (promptReplyStep m p) := by
  obtain ⟨hs, hr, hn⟩ := h
  unfold promptReplyStep
  split
  · cases hla : p.last_prompt with
    | none => exact ⟨hs, hr, hn⟩
    | some cc =>
        have hcc : cc ≠ c := by
          intro hEq
          exact hs DKind.prompt (by simp [getSlot, hla, hEq])
        refine ⟨?_, ?_, hn⟩
        · intro k
          have hk := hs k
          cases k <;> simp only [getSlot] at hk ⊢ <;> simp [hk]
        · intro ev hev
          rcases List.mem_append.mp hev with h' | h'
          · exact hr ev h'
          · simp only [List.mem_singleton] at h'
            subst h'
            exact hcc
  · exact ⟨hs, hr, hn⟩

/-- The whole reply listener preserves orphanhood. -/
theorem replyListener_orphaned (c : Nat) (m : WireMsg) (p : PageState)
    (h : orphaned c p) : orphaned c (replyListener p m) := by
  unfold replyListener
  split
  · exact h
  · split
    · exact h
    · exact promptReplyStep_orphaned c m _
        (confirmReplyStep_orphaned c m _ (alertReplyStep_orphaned c m p h))

/-- Delivering any posted message preserves orphanhood. -/
theorem dispatch_orphaned (c : Nat) (m : WireMsg) (p : PageState)
    (h : orphaned c p) : orphaned c (dispatchMessage p m) := by
  unfold dispatchMessage
  exact replyListener_orphaned c m _
    (orphaned_of_core c _ _ (fallbackListener_core _ m)
      (orphaned_of_core c _ _ (forwarderListener_core p m) h))

/-- A primitive call with the overrides not installed is a no-op. -/
theorem callDialog_not_installed (t : Nat) (k : DKind) (msg dflt : String)
    (p : PageState) (h : p.custom_dialogs = false) :
    callDialog t k msg dflt p = p := by
  unfold callDialog
  simp [h]

/-- A new call of any primitive preserves orphanhood: the replaced slot
receives a strictly fresher computation. -/
theorem callDialog_orphaned (c t : Nat) (k : DKind) (msg dflt : String)
    (p : PageState) (h : orphaned c p) :
    orphaned c (callDialog t k msg dflt p) := by
  by_cases hcd : p.custom_dialogs = true
  · obtain ⟨hk, hO, hn, hr, _⟩ := callDialog_installed t k msg dflt p hcd
    obtain ⟨hs, hres, hlt⟩ := h
    refine ⟨?_, ?_, ?_⟩
    · intro k'
      by_cases hk' : k' = k
      · subst hk'
        rw [hk]
        intro hEq
        injection hEq with hEq
        omega
      · rw [hO k' hk']
        exact hs k'
    · rw [hr]
      exact hres
    · omega
  · rw [callDialog_not_installed t k msg dflt p (by simpa using hcd)]
    exact h

/-- Every event on a page preserves orphanhood. -/
theorem pageStep_orphaned (c : Nat) (e : PageEvent) (p : PageState)
    (h : orphaned c p) : orphaned c (pageStep p e) := by
  cases e with
  | pinject => exact orphaned_of_core c p _ (inject_core p) h
  | pcall t k msg dflt => exact callDialog_orphaned c t k msg dflt p h
  | pmsg m => exact dispatch_orphaned c m p h
  | ppoll => exact orphaned_of_core c p _ (pollPage_core p) h

/-- An orphaned computation stays orphaned along any sequence of events:
in particular it never resolves. -/
theorem pageRun_orphaned (c : Nat) (evs : List PageEvent) :
    ∀ (p : PageState), orphaned c p → orphaned c (pageRun p evs) := by
  induction evs with
  | nil => exact fun p h => h
  | cons e es ih => exact fun p h => ih _ (pageStep_orphaned c e p h)

/-- C9: within one content instance only one dialog computation can be
pending per primitive kind: a second call of the same primitive before the
first reply arrives overwrites the pending resolver slot with the fresh
computation (last-call-wins), and the first call's computation — no longer
referenced by any slot — is orphaned: whatever events follow (further
calls, replies, re-injections, drains), it never appears in the resolution
log. -/
theorem claim9_last_call_wins :
    ∀ (p : PageState) (t1 t2 : Nat) (k : DKind) (m1 d1 m2 d2 : String)
      (evs : List PageEvent),
      wfPageB p = true → p.custom_dialogs = true →
      getSlot k (callDialog t2 k m2 d2 (callDialog t1 k m1 d1 p))
          = some (p.nextComp + 1)
      ∧ ∀ ev ∈ (pageRun (callDialog t2 k m2 d2 (callDialog t1 k m1 d1 p)) evs).resolved,
          ev.comp ≠ p.nextComp := by
  intro p t1 t2 k m1 d1 m2 d2 evs hwf hcd
  obtain ⟨hk1, hO1, hn1, hr1, hc1⟩ := callDialog_installed t1 k m1 d1 p hcd
  obtain ⟨hk2, hO2, hn2, hr2, hc2⟩ := callDialog_installed t2 k m2 d2 _ hc1
  simp only [wfPageB, Bool.and_eq_true, List.all_eq_true, decide_eq_true_eq] at hwf
  obtain ⟨⟨⟨hba, hbc⟩, hbp⟩, hbr⟩ := hwf
  constructor
  · rw [hk2, hn1]
  · have horph : orphaned p.nextComp (callDialog t2 k m2 d2 (callDialog t1 k m1 d1 p)) := by
      refine ⟨?_, ?_, ?_⟩
      · intro k''
        by_cases hkk : k'' = k
        · subst hkk
          rw [hk2, hn1]
          intro hEq
          injection hEq with hEq
          omega
        · rw [hO2 k'' hkk, hO1 k'' hkk]
          cases k'' <;> simp only [getSlot] <;>
            first
              | exact slotBoundB_ne _ _ hba
              | exact slotBoundB_ne _ _ hbc
              | exact slotBoundB_ne _ _ hbp
      · rw [hr2, hr1]
        intro ev hev
        have := hbr ev hev
        omega
      · rw [hn2, hn1]
        omega
    exact (pageRun_orphaned p.nextComp evs _ horph).2.1

/-- Witness for C9: a fresh injected page calls `alert` twice, then the
single pending alert reply is delivered; the slot holds computation 1 and
computation 0 never resolves. -/
theorem claim9_witness :
    getSlot DKind.alert
        (callDialog 1 DKind.alert "b" ""
          (callDialog 0 DKind.alert "a" "" (inject_dialog_js pageInit)))
        = some ((inject_dialog_js pageInit).nextComp + 1)
    ∧ ∀ ev ∈ (pageRun
          (callDialog 1 DKind.alert "b" ""
            (callDialog 0 DKind.alert "a" "" (inject_dialog_js pageInit)))
          [PageEvent.pmsg (replyWire DKind.alert JVal.null 0 0)]).resolved,
        ev.comp ≠ (inject_dialog_js pageInit).nextComp :=
  claim9_last_call_wins (inject_dialog_js pageInit) 0 1 DKind.alert "a" "" "b" ""
    [PageEvent.pmsg (replyWire DKind.alert JVal.null 0 0)] (by decide) (by decide)

/-- Witness for C10: on a page holding pending confirm computation 0, the
first confirm reply clears the slot and resolves it; a duplicate reply
changes nothing. -/
theorem claim10_witness :
    getSlot DKind.confirm
        (replyListener confirmPendingPage (replyWire DKind.confirm (JVal.jbool false) 3 4))
        = none
    ∧ (replyListener confirmPendingPage (replyWire DKind.confirm (JVal.jbool false) 3 4)).resolved
        = confirmPendingPage.resolved
            ++ [⟨0, 3, 4, replyValue DKind.confirm (JVal.jbool false)⟩]
    ∧ replyListener
        (replyListener confirmPendingPage (replyWire DKind.confirm (JVal.jbool false) 3 4))
        (replyWire DKind.confirm (JVal.jbool true) 5 6)
        = replyListener confirmPendingPage (replyWire DKind.confirm (JVal.jbool false) 3 4) :=
  claim10_resolve_at_most_once DKind.confirm confirmPendingPage
    (JVal.jbool false) (JVal.jbool true) 3 5 4 6 0 (by decide) (by decide)

end PyBrowser
